import Mathlib

/-!
Verification of the green_cli authentication/signing core.

This file embeds, in Lean, the operations of `green_cli/green.py` and
`green_cli/authenticator.py` that the specification talks about:

* the auth-handler resolution loop `_gdk_resolve` together with the console
  `TwoFactorResolver` (green.py);
* `WallyAuthenticator.sign_tx`, `derive_key` and `master_key` (authenticator.py);
* the `MnemonicOnDisk` mnemonic file setter/getter and
  `SoftwareAuthenticator.setmnemonic` (authenticator.py);
* `Authenticator.login` as specialised by the device-backed variants
  `WallyAuthenticator` and `HWIDevice` (authenticator.py);
* `DefaultAuthenticator.setpin` and `HWIDevice.get_device` (authenticator.py).

External collaborators (the gdk backend, the wallycore and hwilib libraries,
the console user) are modelled as explicit parameters: the scripted list of
statuses a `GA_auth_handler` reports, a signing oracle standing for the
wallycore signature pipeline, a validation predicate standing for
`gdk.validate_mnemonic`, and user-input functions.  Filesystem state is passed
explicitly.
-/

namespace GreenCli

/-! ## Action resolver (`green.py`, `_gdk_resolve` and `TwoFactorResolver`) -/

/-- Payload of a `resolve_code` status, as read by `_gdk_resolve` and
`TwoFactorResolver.resolve`: the truthiness of `status['device']`, and the
`action`, `method` and `attempts_remaining` fields used for the 2fa prompt. -/
structure RCDetails where
  device : Bool
  action : String
  method : String
  attempts_remaining : Nat
  deriving Repr, DecidableEq

/-- A status reported by `gdk.auth_handler_get_status`, one constructor per
value of `status['status']` handled by `_gdk_resolve`. -/
inductive AuthStatus where
  | done (result : String)
  | error (err : String)
  | request_code (methods : List String)
  | resolve_code (details : RCDetails)
  | call
  deriving Repr, DecidableEq

/-- A collaborator call made by `_gdk_resolve` during the loop, in order. -/
inductive Event where
  | select_auth_factor (methods : List String)
  | request_code (factor : String)
  | authenticator_resolve (details : RCDetails)
  | twofac_resolve (details : RCDetails)
  | resolve_code (resolution : String)
  | call
  deriving Repr, DecidableEq

/-- How the loop of `_gdk_resolve` ends: `return status['result']` on `done`,
`raise RuntimeError(status)` on `error` (the whole status object is raised). -/
inductive Outcome where
  | returned (result : String)
  | raised (status : AuthStatus)
  deriving Repr, DecidableEq

/-- The ASCII apostrophe used in the 2fa prompt text. -/
def quoteChar : String := String.singleton (Char.ofNat 39)

/-- The prompt `TwoFactorResolver.resolve` passes to `input`, built from the
`action`, `method` and `attempts_remaining` fields of the status. -/
def twofacPrompt (d : RCDetails) : String :=
  "Enter 2fa code for action " ++ quoteChar ++ d.action ++ quoteChar ++
    " sent by " ++ d.method ++ " (" ++ toString d.attempts_remaining ++
    " attempts remaining): "

/-- `TwoFactorResolver.resolve`: prompt the user (modelled by `userInput`,
a function from the displayed prompt to the typed reply) for a 2fa code. -/
def TwoFactorResolver.resolve (userInput : String → String) (d : RCDetails) : String :=
  userInput (twofacPrompt d)

/-- `TwoFactorResolver.select_auth_factor`: with more than one factor offered,
the user picks an index (modelled by `userChoice`); otherwise `factors[0]`.
`List.getD` returns the given default when the index is out of range, standing
for the `IndexError` cases which no claim exercises. -/
def TwoFactorResolver.select_auth_factor (userChoice : Nat) (factors : List String) : String :=
  if factors.length > 1 then factors.getD userChoice "" else factors.getD 0 ""

/-- `_gdk_resolve`: drive an auth handler to completion.  The handler is
modelled by the script of statuses it reports on successive
`auth_handler_get_status` calls; each submission back to the handler
(`auth_handler_request_code`, `auth_handler_resolve_code`,
`auth_handler_call`) advances the script by one.  The collaborators are the
parameters: `selectFactor` for `context.twofac_resolver.select_auth_factor`,
`twofac` for `context.twofac_resolver.resolve` and `device` for
`context.authenticator.resolve`.  Returns the ordered list of collaborator
calls and the outcome, or `none` when the script runs out before a terminal
status. -/
def gdkResolve (selectFactor : List String → String) (twofac : RCDetails → String)
    (device : RCDetails → String) : List AuthStatus → Option (List Event × Outcome)
  | [] => none
  | .done r :: _ => some ([], .returned r)
  | .error e :: _ => some ([], .raised (.error e))
  | .request_code ms :: rest =>
    match gdkResolve selectFactor twofac device rest with
    | none => none
    | some (evs, out) =>
      some (.select_auth_factor ms :: .request_code (selectFactor ms) :: evs, out)
  | .resolve_code d :: rest =>
    let resolution := if d.device then device d else twofac d
    let resolveEvent := if d.device then Event.authenticator_resolve d else Event.twofac_resolve d
    match gdkResolve selectFactor twofac device rest with
    | none => none
    | some (evs, out) => some (resolveEvent :: .resolve_code resolution :: evs, out)
  | .call :: rest =>
    match gdkResolve selectFactor twofac device rest with
    | none => none
    | some (evs, out) => some (.call :: evs, out)

/-! ## Transaction signing (`authenticator.py`, `WallyAuthenticator.sign_tx`) -/

/-- One entry of `used_utxos` as read by `sign_tx`: `script_type`,
`prevout_script`, `satoshi` and `user_path`. -/
structure Utxo where
  script_type : Nat
  prevout_script : String
  satoshi : Nat
  user_path : List Nat
  deriving Repr, DecidableEq

/-- The `details['transaction']` dict as read by `sign_tx`. -/
structure TxDetails where
  transaction : String
  used_utxos : List Utxo
  old_used_utxos : List Utxo
  deriving Repr, DecidableEq

/-- The hard-coded list of signable script types in `sign_tx`
(`utxo['script_type'] in [14, 15, 159, 162]`). -/
def segwitScriptTypes : List Nat := [14, 15, 159, 162]

/-- Errors raised by the embedded authenticator operations. -/
inductive PyError where
  | NotImplementedError (msg : String)
  | ClickException (msg : String)
  | IOError
  deriving Repr, DecidableEq

/-- The per-input loop of `sign_tx` over `enumerate(utxos)`.  `sigHex` stands
for the wallycore pipeline producing the hex-encoded DER signature (with the
sighash byte appended) for the input at a given index: computing the signature
hash of the transaction for the input, signing it with the key derived along
`user_path`, DER-encoding and hex-encoding.  A non-segwit `script_type`
raises before any signature for that input is computed. -/
def signTxLoop (sigHex : Nat → Utxo → String) : Nat → List Utxo →
    Except PyError (List String)
  | _, [] => .ok []
  | index, utxo :: rest =>
    if utxo.script_type ∈ segwitScriptTypes then
      match signTxLoop sigHex (index + 1) rest with
      | .ok sigs => .ok (sigHex index utxo :: sigs)
      | .error e => .error e
    else
      .error (.NotImplementedError "Non-segwit input")

/-- `WallyAuthenticator.sign_tx`: pick `used_utxos or old_used_utxos`
(Python `or`: the first list when it is non-empty), run the signing loop, and
return the list of hex signatures (the Python code wraps it as
`json.dumps({'signatures': signatures})`). -/
def sign_tx (sigHex : Nat → Utxo → String) (d : TxDetails) : Except PyError (List String) :=
  let utxos := if d.used_utxos.isEmpty then d.old_used_utxos else d.used_utxos
  signTxLoop sigHex 0 utxos

/-! ## Key derivation (`authenticator.py`, `WallyAuthenticator.derive_key`) -/

/-- `wally.bip32_key_from_parent_path`: derive one index at a time from the
given key.  `ckd` stands for wallycore's single-index child key derivation
with `BIP32_FLAG_KEY_PRIVATE`. -/
def bip32_key_from_parent_path {K : Type} (ckd : K → Nat → K) (key : K)
    (path : List Nat) : K :=
  path.foldl ckd key

/-- `WallyAuthenticator.derive_key`: the master key (as computed by the
`master_key` property from the seed) when the path is empty, otherwise
`bip32_key_from_parent_path` from the master key. -/
def derive_key {K : Type} (ckd : K → Nat → K) (master_key : K) (path : List Nat) : K :=
  if path.isEmpty then master_key else bip32_key_from_parent_path ckd master_key path

/-! ## Mnemonic store (`authenticator.py`, `MnemonicOnDisk`) -/

/-- Permission bits of the mnemonic file that matter to the code: after a
successful write the file is `chmod`-ed to `stat.S_IRUSR`, owner-read-only. -/
inductive FileMode where
  | writable
  | readonly
  deriving Repr, DecidableEq

/-- The state of the mnemonic file: absent, or content plus mode. -/
def MnemonicFile : Type := Option (String × FileMode)

/-- The message of the `ClickException` raised when the mnemonic file cannot
be opened for writing. -/
def refusedOverwriteMessage (filename : String) : String :=
  "Refusing to overwrite mnemonic file " ++ filename ++ "\n" ++
    "First backup and then delete or change file permissions"

/-- The `_mnemonic` setter of `MnemonicOnDisk`: `open(filename, 'w')` succeeds
when the file is absent (creating it writable) or writable, then the phrase is
written and the file `chmod`-ed owner-read-only; opening an owner-read-only
file for writing raises `PermissionError`, turned into a `ClickException`,
and leaves the file untouched.  Returns the new file state and the result. -/
def mnemonicStore (filename : String) (fs : MnemonicFile) (mnemonic : String) :
    MnemonicFile × Except PyError Unit :=
  match fs with
  | some (content, .readonly) =>
    (some (content, .readonly), .error (.ClickException (refusedOverwriteMessage filename)))
  | _ => (some (mnemonic, .readonly), .ok ())

/-- The `_mnemonic` getter of `MnemonicOnDisk`: `open(filename).read()`;
reading a missing file raises `IOError` (owner-read-only still permits the
owner to read). -/
def mnemonicLoad (fs : MnemonicFile) : Except PyError String :=
  match fs with
  | none => .error .IOError
  | some (content, _) => .ok content

/-! ## Mnemonic validation (`authenticator.py`, `SoftwareAuthenticator.setmnemonic`) -/

/-- `' '.join(mnemonic.split())`: split on runs of whitespace, dropping empty
pieces, and re-join with single spaces. -/
def normalizeWhitespace (s : String) : String :=
  String.intercalate " " ((s.split Char.isWhitespace).filter (fun t => t ≠ ""))

/-- `SoftwareAuthenticator.setmnemonic`: normalize whitespace, validate via
`gdk.validate_mnemonic` (modelled by the `validate` parameter), raising
`ClickException("Invalid mnemonic")` with no state change on failure, and
otherwise persist through the `_mnemonic` setter. -/
def setmnemonic (validate : String → Bool) (filename : String) (fs : MnemonicFile)
    (mnemonic : String) : MnemonicFile × Except PyError Unit :=
  let m := normalizeWhitespace mnemonic
  if validate m then mnemonicStore filename fs m
  else (fs, .error (.ClickException "Invalid mnemonic"))

/-! ## Login credentials (`authenticator.py`, `Authenticator.login` and the
device-backed variants `HardwareDevice` / `WallyAuthenticator` / `HWIDevice`) -/

/-- A minimal JSON value, enough for the `hw_device` descriptors built with
`json.dumps`. -/
inductive Json where
  | str (s : String)
  | obj (fields : List (String × Json))
  deriving Repr

/-- The triple of credentials `Authenticator.login` passes to `gdk.login`
after the session: `self.hw_device`, `self.mnemonic`, `self.password`. -/
structure LoginCall where
  hw_device : Json
  mnemonic : String
  password : String
  deriving Repr

/-- `HardwareDevice.hw_device`: `json.dumps({'device': {'name': self.name}})`. -/
def deviceDescriptor (name : String) : Json :=
  .obj [("device", .obj [("name", .str name)])]

/-- `Authenticator.login` as resolved on a `HardwareDevice` (or any subclass
that does not override the three properties): the device descriptor plus the
empty `mnemonic` and `password` properties of `HardwareDevice`. -/
def HardwareDevice.login (name : String) : LoginCall :=
  { hw_device := deviceDescriptor name, mnemonic := "", password := "" }

/-- `WallyAuthenticator.name`. -/
def wallyName : String := "libwally software signer"

/-- `Authenticator.login` as resolved on a `WallyAuthenticator`: by the MRO
`WallyAuthenticator(MnemonicOnDisk, HardwareDevice)`, the `mnemonic` and
`password` properties come from `HardwareDevice` (both empty), not from the
on-disk store; its content, `storedMnemonic`, is not consulted. -/
def WallyAuthenticator.login (storedMnemonic : String) : LoginCall :=
  HardwareDevice.login wallyName

/-- `HWIDevice.name`: `'{}@{}'.format(details['type'], details['path'])`. -/
def HWIDevice.name (type path : String) : String := type ++ "@" ++ path

/-- `Authenticator.login` as resolved on an `HWIDevice`; the seed never
resides in this process at all. -/
def HWIDevice.login (type path : String) : LoginCall :=
  HardwareDevice.login (HWIDevice.name type path)

/-! ## Device enumeration (`authenticator.py`, `HWIDevice.get_device`) -/

/-- A device descriptor returned by `hwilib.commands.enumerate`: the `type`
and `path` fields, and the optional `error` field. -/
structure HwiDeviceInfo where
  type : String
  path : String
  error : Option String
  deriving Repr, DecidableEq

/-- The `ClickException` message for zero enumerated devices. -/
def noDevicesMessage : String :=
  "No hwi devices\nCheck:\n- A device is attached\n" ++
    "- udev rules, device drivers, etc.\n- Cables/connections\n" ++
    "- The device is enabled, for example by entering a PIN\n"

/-- The `ClickException` message for a device whose descriptor carries an
`error` field. -/
def deviceErrorMessage (err : String) : String :=
  "Error with hwi device: " ++ err ++
    "\nCheck the device and activate the bitcoin app if necessary"

/-- `HWIDevice.get_device`: zero devices raise a `ClickException` with
diagnostics; more than one raises `NotImplementedError`; with exactly one,
a descriptor containing an `error` key raises a `ClickException`, otherwise
the device is selected (`HWIDevice(device)` is constructed from it). -/
def get_device : List HwiDeviceInfo → Except PyError HwiDeviceInfo
  | [] => .error (.ClickException noDevicesMessage)
  | [device] =>
    match device.error with
    | some err => .error (.ClickException (deviceErrorMessage err))
    | none => .ok device
  | _ :: _ :: _ => .error (.NotImplementedError "Device selection not implemented")

/-! ## PIN setup (`authenticator.py`, `DefaultAuthenticator.setpin`) -/

/-- The two files of `DefaultAuthenticator` in the config directory:
the plaintext mnemonic file and the pin-data file. -/
structure WalletFiles where
  mnemonic_file : Option String
  pin_data_file : Option String
  deriving Repr, DecidableEq

/-- A filesystem operation performed by `setpin`, in order. -/
inductive FsEvent where
  | write_pin_data (data : String)
  | remove_mnemonic
  deriving Repr, DecidableEq

/-- `DefaultAuthenticator.setpin`: call `gdk.set_pin` (an external collaborator,
modelled by its outcome `setPinResult`); when it raises, nothing further runs;
when it returns `pin_data`, write it to the pin-data file, then remove the
mnemonic file, and return it.  The second component lists the filesystem
operations performed, in order. -/
def setpin (setPinResult : Except String String) (fs : WalletFiles) :
    WalletFiles × List FsEvent × Except String String :=
  match setPinResult with
  | .error e => (fs, [], .error e)
  | .ok pin_data =>
    (⟨none, some pin_data⟩, [.write_pin_data pin_data, .remove_mnemonic], .ok pin_data)

/-! ## Theorems -/

/-- C1: for every scripted backend status sequence `request_code`,
`resolve_code`, `call`, `done`, the resolver loop invokes exactly the
corresponding collaborator calls in that order — factor selection and code
request submission for `request_code`, a resolution submission (device or 2fa)
for `resolve_code`, a plain re-invocation for `call` — and terminates
returning the payload carried by the `done` status. -/
theorem resolver_scripted_sequence (selectFactor : List String → String)
    (twofac deviceResolver : RCDetails → String) (ms : List String)
    (d : RCDetails) (r : String) :
    gdkResolve selectFactor twofac deviceResolver
        [.request_code ms, .resolve_code d, .call, .done r] =
      some ([.select_auth_factor ms, .request_code (selectFactor ms),
             (if d.device then .authenticator_resolve d else .twofac_resolve d),
             .resolve_code (if d.device then deviceResolver d else twofac d),
             .call], .returned r) := by
  rfl

/-- C2: at every `resolve_code` status, the resolver delegates to the
authenticator's device handler exactly when the status identifies the
challenge as device-originated, and otherwise to the Two-Factor Resolver,
whose prompt is built from the action name, the method used and the
remaining-attempts count; the returned resolution is submitted back to the
handler, after which resolution continues with the rest of the script. -/
theorem resolver_resolve_code_dispatch (selectFactor : List String → String)
    (userInput : String → String) (deviceResolver : RCDetails → String)
    (d : RCDetails) (rest : List AuthStatus) :
    gdkResolve selectFactor (TwoFactorResolver.resolve userInput) deviceResolver
        (.resolve_code d :: rest) =
      Option.map
        (fun p =>
          ((if d.device then Event.authenticator_resolve d else Event.twofac_resolve d) ::
             Event.resolve_code
               (if d.device then deviceResolver d else userInput (twofacPrompt d)) :: p.1,
           p.2))
        (gdkResolve selectFactor (TwoFactorResolver.resolve userInput) deviceResolver rest) := by
  cases h : gdkResolve selectFactor (TwoFactorResolver.resolve userInput) deviceResolver rest with
  | none => simp [gdkResolve, h]
  | some p => simp [gdkResolve, h, TwoFactorResolver.resolve]

/-- C9: when the reported status is `error`, the resolver terminates at once,
performing no further collaborator call and ignoring any continuation of the
script (no retry), by raising exactly the status structure reported by the
backend. -/
theorem resolver_error_raises_status (selectFactor : List String → String)
    (twofac deviceResolver : RCDetails → String) (e : String)
    (rest : List AuthStatus) :
    gdkResolve selectFactor twofac deviceResolver (.error e :: rest) =
      some ([], .raised (.error e)) := by
  rfl

/-- Helper: on every path, `derive_key` is the left fold of single-index
derivation from the master key. -/
theorem derive_key_eq_foldl {K : Type} (ckd : K → Nat → K) (k : K) (p : List Nat) :
    derive_key ckd k p = p.foldl ckd k := by
  cases p <;> rfl

/-- C6: key derivation is compositional — the empty path yields the master
key, and deriving along `p1 ++ p2` equals deriving `p2` starting from the key
obtained for `p1`. -/
theorem derive_key_composition {K : Type} (ckd : K → Nat → K) (master_key : K)
    (p1 p2 : List Nat) :
    derive_key ckd master_key [] = master_key ∧
    derive_key ckd master_key (p1 ++ p2) =
      derive_key ckd (derive_key ckd master_key p1) p2 := by
  refine ⟨rfl, ?_⟩
  simp [derive_key_eq_foldl, List.foldl_append]

/-- Helper: the signing loop fails with the non-segwit error whenever some
utxo in the list has a script type outside the signable set. -/
theorem signTxLoop_nonsegwit (sigHex : Nat → Utxo → String) (utxos : List Utxo)
    (u : Utxo) (hu : u ∈ utxos) (hty : u.script_type ∉ segwitScriptTypes) :
    ∀ index, signTxLoop sigHex index utxos =
      .error (.NotImplementedError "Non-segwit input") := by
  induction utxos with
  | nil => cases hu
  | cons v rest ih =>
    intro index
    rcases List.mem_cons.mp hu with h | h
    · subst h
      simp [signTxLoop, hty]
    · by_cases hv : v.script_type ∈ segwitScriptTypes
      · simp [signTxLoop, hv, ih h (index + 1)]
      · simp [signTxLoop, hv]

/-- C3: a transaction-signing request to the wally backend whose effective
utxo list contains an input with a non-witness script type fails with the
unsupported-input error, returning no signature for any input of the
transaction. -/
theorem sign_tx_nonsegwit_fails (sigHex : Nat → Utxo → String) (d : TxDetails)
    (u : Utxo)
    (hu : u ∈ (if d.used_utxos.isEmpty then d.old_used_utxos else d.used_utxos))
    (hty : u.script_type ∉ segwitScriptTypes) :
    sign_tx sigHex d = .error (.NotImplementedError "Non-segwit input") := by
  unfold sign_tx
  exact signTxLoop_nonsegwit sigHex _ u hu hty 0

/-- Witness for C3: a two-input transaction whose second input has script
type 2 fails, including producing no signature for the segwit first input. -/
theorem sign_tx_nonsegwit_fails_witness :
    sign_tx (fun _ _ => "3044deadbeef01")
        ⟨"0200tx", [⟨14, "0014aa", 1000, [0]⟩, ⟨2, "76a9bb", 500, [1]⟩], []⟩ =
      .error (.NotImplementedError "Non-segwit input") :=
  sign_tx_nonsegwit_fails (fun _ _ => "3044deadbeef01") _ ⟨2, "76a9bb", 500, [1]⟩
    (by decide) (by decide)

/-- C4: storing a phrase into an absent mnemonic file writes it and restricts
the file to owner-read-only; a second store then raises the refused-overwrite
error and leaves the originally stored phrase (and its mode) unchanged. -/
theorem mnemonic_store_refuses_overwrite (filename p1 p2 : String) :
    mnemonicStore filename none p1 = (some (p1, .readonly), .ok ()) ∧
    mnemonicStore filename (mnemonicStore filename none p1).1 p2 =
      (some (p1, .readonly),
       .error (.ClickException (refusedOverwriteMessage filename))) :=
  ⟨rfl, rfl⟩

/-- C5: a phrase failing validation is rejected with the invalid-mnemonic
error and no state change; a phrase passing validation, stored where no
read-only file blocks the write, is accepted, and a subsequent load returns
it unchanged modulo whitespace normalization. -/
theorem setmnemonic_validation (validate : String → Bool) (filename : String)
    (fs : MnemonicFile) (phrase : String) :
    (validate (normalizeWhitespace phrase) = false →
      setmnemonic validate filename fs phrase =
        (fs, .error (.ClickException "Invalid mnemonic"))) ∧
    (validate (normalizeWhitespace phrase) = true →
      (fs = none ∨ ∃ c, fs = some (c, .writable)) →
      setmnemonic validate filename fs phrase =
        (some (normalizeWhitespace phrase, .readonly), .ok ()) ∧
      mnemonicLoad (setmnemonic validate filename fs phrase).1 =
        .ok (normalizeWhitespace phrase)) := by
  constructor
  · intro hv
    simp [setmnemonic, hv]
  · intro hv hfs
    rcases hfs with h | ⟨c, h⟩ <;> subst h <;>
      simp [setmnemonic, hv, mnemonicStore, mnemonicLoad]

/-- Witness for C5: a failing phrase is rejected on an empty store, and a
passing phrase with doubled spaces is stored and loads back normalized. -/
theorem setmnemonic_validation_witness :
    setmnemonic (fun _ => false) "cfg/mnemonic" none "abandon ability" =
      (none, .error (.ClickException "Invalid mnemonic")) ∧
    setmnemonic (fun _ => true) "cfg/mnemonic" none "abandon  ability" =
      (some (normalizeWhitespace "abandon  ability", .readonly), .ok ()) :=
  ⟨(setmnemonic_validation (fun _ => false) "cfg/mnemonic" none "abandon ability").1 rfl,
   ((setmnemonic_validation (fun _ => true) "cfg/mnemonic" none "abandon  ability").2
      rfl (Or.inl rfl)).1⟩

/-- C7: logins through the device-backed variants (wally and external
hardware) carry an empty seed phrase and an empty password, supply a device
descriptor naming the device instead, and are independent of any locally
stored seed. -/
theorem device_login_credentials (storedMnemonic type path : String) :
    WallyAuthenticator.login storedMnemonic =
      { hw_device := deviceDescriptor wallyName, mnemonic := "", password := "" } ∧
    HWIDevice.login type path =
      { hw_device := deviceDescriptor (HWIDevice.name type path),
        mnemonic := "", password := "" } ∧
    WallyAuthenticator.login storedMnemonic = WallyAuthenticator.login "" :=
  ⟨rfl, rfl, rfl⟩

/-- Counterexample for C8 as stated: with exactly one enumerated device, the
client does not always proceed with it — a single descriptor carrying an
`error` field is rejected with a diagnostic instead of being selected. -/
theorem get_device_single_error_counterexample :
    ¬ ∃ dev, get_device [⟨"ledger", "0001:0007:00", some "Device is locked"⟩] =
      .ok dev := by
  rintro ⟨dev, h⟩
  simp [get_device] at h

/-- C8 (amended): zero devices fail with the diagnostic-guidance error;
exactly one device whose descriptor carries no error field is selected;
exactly one device whose descriptor carries an error field fails with a
diagnostic naming that error; more than one device is explicitly rejected. -/
theorem get_device_enumeration (devices : List HwiDeviceInfo) :
    (devices = [] → get_device devices = .error (.ClickException noDevicesMessage)) ∧
    (∀ d, devices = [d] → d.error = none → get_device devices = .ok d) ∧
    (∀ d err, devices = [d] → d.error = some err →
      get_device devices = .error (.ClickException (deviceErrorMessage err))) ∧
    (2 ≤ devices.length →
      get_device devices =
        .error (.NotImplementedError "Device selection not implemented")) := by
  refine ⟨?_, ?_, ?_, ?_⟩
  · rintro rfl
    rfl
  · rintro d rfl herr
    simp [get_device, herr]
  · rintro d err rfl herr
    simp [get_device, herr]
  · intro hlen
    match devices, hlen with
    | _ :: _ :: _, _ => rfl

/-- Witness for C8 (amended): all four enumeration outcomes at concrete
device lists. -/
theorem get_device_enumeration_witness :
    get_device [] = .error (.ClickException noDevicesMessage) ∧
    get_device [⟨"ledger", "p1", none⟩] = .ok ⟨"ledger", "p1", none⟩ ∧
    get_device [⟨"ledger", "p1", some "err"⟩] =
      .error (.ClickException (deviceErrorMessage "err")) ∧
    get_device [⟨"trezor", "p1", none⟩, ⟨"ledger", "p2", none⟩] =
      .error (.NotImplementedError "Device selection not implemented") :=
  ⟨(get_device_enumeration []).1 rfl,
   (get_device_enumeration [⟨"ledger", "p1", none⟩]).2.1 ⟨"ledger", "p1", none⟩ rfl rfl,
   (get_device_enumeration [⟨"ledger", "p1", some "err"⟩]).2.2.1
     ⟨"ledger", "p1", some "err"⟩ "err" rfl rfl,
   (get_device_enumeration [⟨"trezor", "p1", none⟩, ⟨"ledger", "p2", none⟩]).2.2.2
     (by decide)⟩

/-- C10: when the remote set-pin call fails, both the mnemonic file and the
pin-data file are left unchanged and no filesystem operation runs; when it
succeeds, the pin data is written first and only then is the mnemonic file
removed, as the ordered operation trace shows. -/
theorem setpin_preserves_seed (fs : WalletFiles) (e pd : String) :
    setpin (.error e) fs = (fs, [], .error e) ∧
    setpin (.ok pd) fs =
      (⟨none, some pd⟩, [.write_pin_data pd, .remove_mnemonic], .ok pd) :=
  ⟨rfl, rfl⟩

end GreenCli
